import Mathlib

/-!
Shallow embedding of `src/models/Vacancy.py` (class `Vacancy`).

Python runtime values that can reach the nine constructor arguments are
modelled by `PyVal`: `None`, booleans, integers, floats (modelled as
rationals) and strings.  Python's dynamic `isinstance` checks, `==`
comparison, `<`/`<=`/`>`/`>=` comparison and `int(...)` cast are modelled
by total Lean functions on `PyVal`.  The fallible constructor
(`__init__`, which may raise `ValueError`) is modelled as
`Vacancy.init : ... → Except String Vacancy`.
-/

set_option autoImplicit false

/-- A Python runtime value, restricted to the types that occur in the
repository: `None`, `bool`, `int`, `float` (modelled as a rational) and
`str`. -/
inductive PyVal where
  | null : PyVal
  | bool : Bool → PyVal
  | int : Int → PyVal
  | float : ℚ → PyVal
  | str : String → PyVal
  deriving DecidableEq, Repr

/-- The numeric value of a Python value, when it has one.  Python treats
`True` as `1` and `False` as `0` in numeric contexts (`bool` is a
subclass of `int`). -/
def PyVal.toRat : PyVal → Option ℚ
  | .bool b => some (if b then 1 else 0)
  | .int n => some (n : ℚ)
  | .float q => some q
  | _ => Option.none

/-- Python `==` on the values above: numbers (bool/int/float) compare by
numeric value across types, strings compare by content, `None` equals
only `None`, and any other mixed pair is unequal. -/
def pyEq (a b : PyVal) : Bool :=
  match a.toRat, b.toRat with
  | some x, some y => decide (x = y)
  | _, _ =>
    match a, b with
    | .str s, .str t => decide (s = t)
    | .null, .null => true
    | _, _ => false

/-- Python `<` on numeric values; non-numeric operands never make the
comparison true (in the modelled program `<` is only reached on the
numeric `salary_from`/`salary_to` fields of validated records). -/
def pyLt (a b : PyVal) : Bool :=
  match a.toRat, b.toRat with
  | some x, some y => decide (x < y)
  | _, _ => false

/-- Python `<=` on numeric values (see `pyLt`). -/
def pyLe (a b : PyVal) : Bool :=
  match a.toRat, b.toRat with
  | some x, some y => decide (x ≤ y)
  | _, _ => false

/-- Python `>` on numeric values (see `pyLt`). -/
def pyGt (a b : PyVal) : Bool :=
  match a.toRat, b.toRat with
  | some x, some y => decide (y < x)
  | _, _ => false

/-- Python `>=` on numeric values (see `pyLt`). -/
def pyGe (a b : PyVal) : Bool :=
  match a.toRat, b.toRat with
  | some x, some y => decide (y ≤ x)
  | _, _ => false

/-- Python `isinstance(x, int)`: true for `int` and for `bool`, because
`bool` is a subclass of `int`. -/
def isInstInt : PyVal → Bool
  | .bool _ => true
  | .int _ => true
  | _ => false

/-- Python `isinstance(x, str)`. -/
def isInstStr : PyVal → Bool
  | .str _ => true
  | _ => false

/-- Python `isinstance(x, (int, float))`: true for `bool`, `int` and
`float`. -/
def isInstNum : PyVal → Bool
  | .bool _ => true
  | .int _ => true
  | .float _ => true
  | _ => false

/-- Python `int(x)` for a numeric `x`: truncation toward zero.  `int()`
applied to a non-numeric value raises in Python; that case is
unreachable on the validated salary fields, and the model returns `0`
there. -/
def pyTrunc : PyVal → Int
  | .bool b => if b then 1 else 0
  | .int n => n
  | .float q => q.num.tdiv q.den
  | _ => 0

/-- Python `str(x)` as used by the f-strings of `__str__`.  Only the
`str` and `int`/`bool` cases are reachable on validated records (the
currency of a validated record is a `str`); the `float` case uses the
Lean rational printer, which differs from Python's float `repr`, but is
never applied by `salary_range` to a validated record's currency. -/
def pyFmt : PyVal → String
  | .str s => s
  | .int n => toString n
  | .bool b => if b then "True" else "False"
  | .null => "None"
  | .float q => toString q

/-- The record stored by `Vacancy.__init__`: nine dynamically typed
fields. -/
structure Vacancy where
  id_num : PyVal
  vacancy_name : PyVal
  company_name : PyVal
  description : PyVal
  salary_from : PyVal
  salary_to : PyVal
  salary_currency : PyVal
  area : PyVal
  url : PyVal
  deriving DecidableEq, Repr

/-- `salary_from if salary_from is not None else 0` (and the same for
`salary_to`). -/
def coalesceSal (x : PyVal) : PyVal :=
  if x ≠ PyVal.null then x else .int 0

/-- `salary_currency if salary_currency is not None else "Нет данных"`. -/
def coalesceCur (x : PyVal) : PyVal :=
  if x ≠ PyVal.null then x else .str "Нет данных"

/-- `Vacancy._validate_data`: the chain of `isinstance` checks, in the
source's order, each raising `ValueError` with its message. -/
def Vacancy.validate_data (v : Vacancy) : Except String Unit :=
  if !isInstInt v.id_num then
    .error "ID должно быть целым числом"
  else if !isInstStr v.vacancy_name then
    .error "Название вакансии должно быть строкой"
  else if !isInstStr v.company_name then
    .error "Название компании должно быть строкой"
  else if !isInstStr v.description then
    .error "Описание вакансии должно быть строкой"
  else if !isInstNum v.salary_from then
    .error "Зарплата \x27from\x27 должна быть числом (целым или десятичным)"
  else if !isInstNum v.salary_to then
    .error "Зарплата \x27to\x27 должна быть числом (целым или десятичным) или None"
  else if !isInstStr v.salary_currency then
    .error "Валюта зарплаты должна быть строкой"
  else if !isInstStr v.area then
    .error "Местоположение должно быть строкой"
  else if !isInstStr v.url then
    .error "URL должен быть строкой"
  else
    .ok ()

/-- `Vacancy.__init__`: store the fields (coercing a `None`
`salary_from`/`salary_to` to `0` and a `None` `salary_currency` to
`"Нет данных"`), then run `_validate_data`; a raised `ValueError` is the
`error` case and no object is produced. -/
def Vacancy.init (id_num vacancy_name company_name description
    salary_from salary_to salary_currency area url : PyVal) :
    Except String Vacancy :=
  let v : Vacancy :=
    { id_num := id_num
      vacancy_name := vacancy_name
      company_name := company_name
      description := description
      salary_from := coalesceSal salary_from
      salary_to := coalesceSal salary_to
      salary_currency := coalesceCur salary_currency
      area := area
      url := url }
  match v.validate_data with
  | .ok _ => .ok v
  | .error e => .error e

/-- The `salary_range` value computed by `Vacancy.__str__`. -/
def Vacancy.salary_range (v : Vacancy) : String :=
  if pyEq v.salary_from (.int 0) && pyEq v.salary_to (.int 0) then
    "Информации нет"
  else
    let from_part :=
      if !pyEq v.salary_from (.int 0) then
        "От " ++ toString (pyTrunc v.salary_from) ++ " "
      else ""
    let to_part :=
      if !pyEq v.salary_to (.int 0) then
        "До " ++ toString (pyTrunc v.salary_to) ++ " "
      else ""
    from_part ++ to_part ++ pyFmt v.salary_currency

/-- `Vacancy.__str__`. -/
def Vacancy.render (v : Vacancy) : String :=
  "ID: " ++ pyFmt v.id_num ++ "\n" ++
  "Название вакансии: " ++ pyFmt v.vacancy_name ++ "\n" ++
  "Название компании: " ++ pyFmt v.company_name ++ "\n" ++
  "Описание: " ++ pyFmt v.description ++ "\n" ++
  "Зарплата: " ++ v.salary_range ++ "\n" ++
  "Местоположение: " ++ pyFmt v.area ++ "\n" ++
  "URL: " ++ pyFmt v.url

/-- `Vacancy.to_dict`: the nine fields as a key/value mapping with the
raw stored values. -/
def Vacancy.to_dict (v : Vacancy) : List (String × PyVal) :=
  [("id_num", v.id_num), ("vacancy_name", v.vacancy_name),
   ("company_name", v.company_name), ("description", v.description),
   ("salary_from", v.salary_from), ("salary_to", v.salary_to),
   ("salary_currency", v.salary_currency), ("area", v.area),
   ("url", v.url)]

/-- Re-construction of a `Vacancy` from a dictionary, key by key, as a
caller of `to_dict` would do it. -/
def Vacancy.from_dict (d : List (String × PyVal)) : Except String Vacancy :=
  match d.lookup "id_num", d.lookup "vacancy_name", d.lookup "company_name",
        d.lookup "description", d.lookup "salary_from", d.lookup "salary_to",
        d.lookup "salary_currency", d.lookup "area", d.lookup "url" with
  | some i, some n, some c, some de, some sf, some st, some sc, some a, some u =>
      Vacancy.init i n c de sf st sc a u
  | _, _, _, _, _, _, _, _, _ => Except.error "missing key"

/-- `Vacancy.__eq__`: equality by salary only. -/
def Vacancy.eq (a b : Vacancy) : Bool :=
  pyEq a.salary_from b.salary_from &&
  pyEq a.salary_to b.salary_to &&
  pyEq a.salary_currency b.salary_currency

/-- `Vacancy.__lt__`: `self.salary_from < other.salary_from`. -/
def Vacancy.lt (a b : Vacancy) : Bool := pyLt a.salary_from b.salary_from

/-- `Vacancy.__le__`: `self.salary_from <= other.salary_from`. -/
def Vacancy.le (a b : Vacancy) : Bool := pyLe a.salary_from b.salary_from

/-- `Vacancy.__gt__`: `self.salary_to > other.salary_to`. -/
def Vacancy.gt (a b : Vacancy) : Bool := pyGt a.salary_to b.salary_to

/-- `Vacancy.__ge__`: `self.salary_to >= other.salary_to`. -/
def Vacancy.ge (a b : Vacancy) : Bool := pyGe a.salary_to b.salary_to

/-- Whether an `Except` result is a success. -/
def exceptOk {ε α : Type} : Except ε α → Bool
  | .ok _ => true
  | .error _ => false

/-- The `isinstance` checks of `_validate_data`, in the source's order,
each paired with its error message. -/
def Vacancy.checkList (v : Vacancy) : List (Bool × String) :=
  [(isInstInt v.id_num, "ID должно быть целым числом"),
   (isInstStr v.vacancy_name, "Название вакансии должно быть строкой"),
   (isInstStr v.company_name, "Название компании должно быть строкой"),
   (isInstStr v.description, "Описание вакансии должно быть строкой"),
   (isInstNum v.salary_from, "Зарплата \x27from\x27 должна быть числом (целым или десятичным)"),
   (isInstNum v.salary_to, "Зарплата \x27to\x27 должна быть числом (целым или десятичным) или None"),
   (isInstStr v.salary_currency, "Валюта зарплаты должна быть строкой"),
   (isInstStr v.area, "Местоположение должно быть строкой"),
   (isInstStr v.url, "URL должен быть строкой")]

/-- First-failure semantics over a list of checks: the message of the
first check whose condition is false, if any. -/
def firstFailure : List (Bool × String) → Option String
  | [] => Option.none
  | (ok, msg) :: rest => if ok then firstFailure rest else some msg

deriving instance DecidableEq for Except

/-! ### Helper lemmas -/

theorem pyEq_refl (x : PyVal) : pyEq x x = true := by
  cases x <;> simp [pyEq, PyVal.toRat]

theorem pyEq_symm (x y : PyVal) : pyEq x y = pyEq y x := by
  cases x <;> cases y <;> simp [pyEq, PyVal.toRat, eq_comm]

theorem validate_ok_iff (v : Vacancy) :
    v.validate_data = .ok () ↔
      (isInstInt v.id_num && isInstStr v.vacancy_name && isInstStr v.company_name &&
       isInstStr v.description && isInstNum v.salary_from && isInstNum v.salary_to &&
       isInstStr v.salary_currency && isInstStr v.area && isInstStr v.url) = true := by
  unfold Vacancy.validate_data
  repeat' split
  all_goals simp_all

theorem coalesceSal_of_num {x : PyVal} (h : isInstNum x = true) : coalesceSal x = x := by
  cases x <;> simp_all [coalesceSal, isInstNum]

theorem coalesceCur_of_str {x : PyVal} (h : isInstStr x = true) : coalesceCur x = x := by
  cases x <;> simp_all [coalesceCur, isInstStr]

theorem vacEq_refl (v : Vacancy) : Vacancy.eq v v = true := by
  simp [Vacancy.eq, pyEq_refl]

theorem chain_step (b : Bool) (m : String) (rest : List (Bool × String))
    (e : Except String Unit)
    (h : e = match firstFailure rest with
             | some x => Except.error x
             | Option.none => Except.ok ()) :
    (if !b then Except.error m else e) =
      match firstFailure ((b, m) :: rest) with
      | some x => Except.error x
      | Option.none => Except.ok () := by
  cases b <;> simp [firstFailure, h]

/-! ### Claim theorems -/

/-- C1: For every two records `a` and `b`, `__eq__` returns true iff
`a.salary_from`, `a.salary_to` and `a.salary_currency` each compare
equal (Python `==`) to the corresponding field of `b`; the fields
`id_num`, `vacancy_name`, `company_name`, `description`, `area` and
`url` have no influence on equality. -/
theorem C1_eq_salary_fields_only (a b : Vacancy) :
    (Vacancy.eq a b = true ↔
      (pyEq a.salary_from b.salary_from = true ∧
       pyEq a.salary_to b.salary_to = true ∧
       pyEq a.salary_currency b.salary_currency = true)) ∧
    (∀ i n c d ar u i2 n2 c2 d2 ar2 u2 : PyVal,
      Vacancy.eq
        { a with id_num := i, vacancy_name := n, company_name := c,
                 description := d, area := ar, url := u }
        { b with id_num := i2, vacancy_name := n2, company_name := c2,
                 description := d2, area := ar2, url := u2 } =
      Vacancy.eq a b) := by
  constructor
  · simp [Vacancy.eq, Bool.and_eq_true, and_assoc]
  · intro i n c d ar u i2 n2 c2 d2 ar2 u2
    rfl

/-- Witness for C1 at two concrete records that differ in every
non-salary field but agree on the three salary fields. -/
theorem C1_eq_salary_fields_only_witness :
    Vacancy.eq
      { id_num := .int 1, vacancy_name := .str "a", company_name := .str "b",
        description := .str "c", salary_from := .int 100, salary_to := .int 500,
        salary_currency := .str "RUB", area := .str "d", url := .str "e" }
      { id_num := .int 2, vacancy_name := .str "f", company_name := .str "g",
        description := .str "h", salary_from := .int 100, salary_to := .int 500,
        salary_currency := .str "RUB", area := .str "i", url := .str "j" } = true :=
  (C1_eq_salary_fields_only
    { id_num := .int 1, vacancy_name := .str "a", company_name := .str "b",
      description := .str "c", salary_from := .int 100, salary_to := .int 500,
      salary_currency := .str "RUB", area := .str "d", url := .str "e" }
    { id_num := .int 2, vacancy_name := .str "f", company_name := .str "g",
      description := .str "h", salary_from := .int 100, salary_to := .int 500,
      salary_currency := .str "RUB", area := .str "i", url := .str "j" }).1.mpr
    ⟨by decide, by decide, by decide⟩

/-- C2: `__lt__` and `__le__` compare `salary_from`, `__gt__` and
`__ge__` compare `salary_to`: for records whose salary fields have
numeric values `xf`, `yf`, `xt`, `yt`, `a < b` iff `xf < yf`,
`a <= b` iff `xf ≤ yf`, `a > b` iff `xt > yt`, `a >= b` iff
`xt ≥ yt`. -/
theorem C2_ordering_fields (a b : Vacancy) (xf yf xt yt : ℚ)
    (hf : a.salary_from.toRat = some xf) (hg : b.salary_from.toRat = some yf)
    (ht : a.salary_to.toRat = some xt) (hu : b.salary_to.toRat = some yt) :
    (Vacancy.lt a b = pyLt a.salary_from b.salary_from ∧
     Vacancy.le a b = pyLe a.salary_from b.salary_from ∧
     Vacancy.gt a b = pyGt a.salary_to b.salary_to ∧
     Vacancy.ge a b = pyGe a.salary_to b.salary_to) ∧
    ((Vacancy.lt a b = true ↔ xf < yf) ∧
     (Vacancy.le a b = true ↔ xf ≤ yf) ∧
     (Vacancy.gt a b = true ↔ xt > yt) ∧
     (Vacancy.ge a b = true ↔ xt ≥ yt)) := by
  refine ⟨⟨rfl, rfl, rfl, rfl⟩, ?_⟩
  simp [Vacancy.lt, Vacancy.le, Vacancy.gt, Vacancy.ge,
        pyLt, pyLe, pyGt, pyGe, hf, hg, ht, hu]

/-- Witness for C2 at two concrete records. -/
theorem C2_ordering_fields_witness :
    Vacancy.lt
      { id_num := .int 1, vacancy_name := .str "a", company_name := .str "b",
        description := .str "c", salary_from := .int 100, salary_to := .int 500,
        salary_currency := .str "RUB", area := .str "d", url := .str "e" }
      { id_num := .int 2, vacancy_name := .str "f", company_name := .str "g",
        description := .str "h", salary_from := .int 200, salary_to := .int 300,
        salary_currency := .str "RUB", area := .str "i", url := .str "j" } = true ∧
    Vacancy.gt
      { id_num := .int 1, vacancy_name := .str "a", company_name := .str "b",
        description := .str "c", salary_from := .int 100, salary_to := .int 500,
        salary_currency := .str "RUB", area := .str "d", url := .str "e" }
      { id_num := .int 2, vacancy_name := .str "f", company_name := .str "g",
        description := .str "h", salary_from := .int 200, salary_to := .int 300,
        salary_currency := .str "RUB", area := .str "i", url := .str "j" } = true := by
  have h := C2_ordering_fields
    { id_num := .int 1, vacancy_name := .str "a", company_name := .str "b",
      description := .str "c", salary_from := .int 100, salary_to := .int 500,
      salary_currency := .str "RUB", area := .str "d", url := .str "e" }
    { id_num := .int 2, vacancy_name := .str "f", company_name := .str "g",
      description := .str "h", salary_from := .int 200, salary_to := .int 300,
      salary_currency := .str "RUB", area := .str "i", url := .str "j" }
    ((100 : Int) : ℚ) ((200 : Int) : ℚ) ((500 : Int) : ℚ) ((300 : Int) : ℚ)
    rfl rfl rfl rfl
  refine ⟨h.2.1.mpr ?_, h.2.2.2.1.mpr ?_⟩ <;> norm_num

/-- C9: the salary-equivalence equality predicate is reflexive and
symmetric. -/
theorem C9_eq_refl_symm :
    (∀ v : Vacancy, Vacancy.eq v v = true) ∧
    (∀ a b : Vacancy, Vacancy.eq a b = true → Vacancy.eq b a = true) := by
  constructor
  · intro v
    exact vacEq_refl v
  · intro a b h
    unfold Vacancy.eq at h ⊢
    rw [pyEq_symm b.salary_from, pyEq_symm b.salary_to, pyEq_symm b.salary_currency]
    exact h

/-- Witness for C9 at concrete records. -/
theorem C9_eq_refl_symm_witness :
    Vacancy.eq
      { id_num := .int 1, vacancy_name := .str "a", company_name := .str "b",
        description := .str "c", salary_from := .int 100, salary_to := .int 500,
        salary_currency := .str "RUB", area := .str "d", url := .str "e" }
      { id_num := .int 1, vacancy_name := .str "a", company_name := .str "b",
        description := .str "c", salary_from := .int 100, salary_to := .int 500,
        salary_currency := .str "RUB", area := .str "d", url := .str "e" } = true ∧
    Vacancy.eq
      { id_num := .int 9, vacancy_name := .str "x", company_name := .str "y",
        description := .str "z", salary_from := .int 100, salary_to := .int 500,
        salary_currency := .str "RUB", area := .str "w", url := .str "v" }
      { id_num := .int 1, vacancy_name := .str "a", company_name := .str "b",
        description := .str "c", salary_from := .int 100, salary_to := .int 500,
        salary_currency := .str "RUB", area := .str "d", url := .str "e" } = true := by
  refine ⟨C9_eq_refl_symm.1 _, C9_eq_refl_symm.2 _ _ ?_⟩
  decide

/-- C10: an input whose `id_num` is the boolean `True` and whose other
eight fields have the correct types is accepted: construction succeeds
and the stored `id_num` is that boolean, because `isinstance(x, int)`
accepts booleans. -/
theorem C10_bool_id_accepted :
    Vacancy.init (.bool true) (.str "t") (.str "c") (.str "d")
      (.int 1) (.int 2) (.str "RUB") (.str "a") (.str "u")
    = .ok { id_num := .bool true, vacancy_name := .str "t", company_name := .str "c",
            description := .str "d", salary_from := .int 1, salary_to := .int 2,
            salary_currency := .str "RUB", area := .str "a", url := .str "u" } := by
  decide

/-- C3: a `None` `salary_from` or `salary_to` is stored as `0` and a
`None` `salary_currency` as `"Нет данных"`; each coercion is applied
independently, before validation, so for an otherwise-valid field set a
`None` in any (or all) of these three fields never makes construction
fail. -/
theorem C3_null_coercion (i n c d sf st sc a u : PyVal)
    (hi : isInstInt i = true) (hn : isInstStr n = true) (hc : isInstStr c = true)
    (hd : isInstStr d = true) (ha : isInstStr a = true) (hu : isInstStr u = true) :
    (Vacancy.init i n c d .null st sc a u = Vacancy.init i n c d (.int 0) st sc a u) ∧
    (Vacancy.init i n c d sf .null sc a u = Vacancy.init i n c d sf (.int 0) sc a u) ∧
    (Vacancy.init i n c d sf st .null a u =
      Vacancy.init i n c d sf st (.str "Нет данных") a u) ∧
    (Vacancy.init i n c d .null .null .null a u =
      .ok { id_num := i, vacancy_name := n, company_name := c, description := d,
            salary_from := .int 0, salary_to := .int 0,
            salary_currency := .str "Нет данных", area := a, url := u }) := by
  refine ⟨rfl, rfl, rfl, ?_⟩
  have e1 : isInstNum (coalesceSal PyVal.null) = true := rfl
  have e2 : isInstStr (coalesceCur PyVal.null) = true := rfl
  simp [Vacancy.init, Vacancy.validate_data, hi, hn, hc, hd, ha, hu, e1, e2]
  exact ⟨rfl, rfl⟩

/-- Witness for C3 at a concrete otherwise-valid field set. -/
theorem C3_null_coercion_witness :
    Vacancy.init (.int 7) (.str "t") (.str "c") (.str "d")
      .null .null .null (.str "a") (.str "u")
    = .ok { id_num := .int 7, vacancy_name := .str "t", company_name := .str "c",
            description := .str "d", salary_from := .int 0, salary_to := .int 0,
            salary_currency := .str "Нет данных", area := .str "a",
            url := .str "u" } :=
  (C3_null_coercion (.int 7) (.str "t") (.str "c") (.str "d")
    (.float 1) (.float 1) (.str "RUB") (.str "a") (.str "u")
    rfl rfl rfl rfl rfl rfl).2.2.2

/-- C4: construction succeeds exactly when every (coerced) field passes
its `isinstance` check — a wrong-typed field makes it fail with an
error and no object — and on success every stored field is exactly the
(possibly coerced) input value. -/
theorem C4_type_validation (i n c d sf st sc a u : PyVal) :
    (exceptOk (Vacancy.init i n c d sf st sc a u) =
      (isInstInt i && isInstStr n && isInstStr c && isInstStr d &&
       isInstNum (coalesceSal sf) && isInstNum (coalesceSal st) &&
       isInstStr (coalesceCur sc) && isInstStr a && isInstStr u)) ∧
    (∀ v, Vacancy.init i n c d sf st sc a u = .ok v →
      v.id_num = i ∧ v.vacancy_name = n ∧ v.company_name = c ∧
      v.description = d ∧ v.salary_from = coalesceSal sf ∧
      v.salary_to = coalesceSal st ∧ v.salary_currency = coalesceCur sc ∧
      v.area = a ∧ v.url = u) := by
  have h := validate_ok_iff
    ⟨i, n, c, d, coalesceSal sf, coalesceSal st, coalesceCur sc, a, u⟩
  constructor
  · simp only [Vacancy.init]
    cases hv : Vacancy.validate_data
        ⟨i, n, c, d, coalesceSal sf, coalesceSal st, coalesceCur sc, a, u⟩ with
    | ok x =>
        cases x
        have hb := h.mp hv
        simp only [exceptOk]
        exact hb.symm
    | error e =>
        simp only [exceptOk]
        cases hbig : (isInstInt i && isInstStr n && isInstStr c && isInstStr d &&
            isInstNum (coalesceSal sf) && isInstNum (coalesceSal st) &&
            isInstStr (coalesceCur sc) && isInstStr a && isInstStr u) with
        | true =>
            have := h.mpr hbig
            rw [hv] at this
            cases this
        | false => rfl
  · intro v hv
    simp only [Vacancy.init] at hv
    cases hval : Vacancy.validate_data
        ⟨i, n, c, d, coalesceSal sf, coalesceSal st, coalesceCur sc, a, u⟩ with
    | ok x =>
        rw [hval] at hv
        simp only [] at hv
        cases hv
        exact ⟨rfl, rfl, rfl, rfl, rfl, rfl, rfl, rfl, rfl⟩
    | error e =>
        rw [hval] at hv
        cases hv

/-- Witness for C4 at concrete field sets: a wrong-typed id fails, and
a successful construction stores the inputs. -/
theorem C4_type_validation_witness :
    exceptOk (Vacancy.init (.str "bad") (.str "t") (.str "c") (.str "d")
      (.int 1) (.int 2) (.str "RUB") (.str "a") (.str "u"))
    = (isInstInt (.str "bad") && isInstStr (.str "t") && isInstStr (.str "c") &&
       isInstStr (.str "d") && isInstNum (coalesceSal (.int 1)) &&
       isInstNum (coalesceSal (.int 2)) && isInstStr (coalesceCur (.str "RUB")) &&
       isInstStr (.str "a") && isInstStr (.str "u")) ∧
    ({ id_num := .int 1, vacancy_name := .str "t", company_name := .str "c",
       description := .str "d", salary_from := .int 1, salary_to := .int 2,
       salary_currency := .str "RUB", area := .str "a",
       url := .str "u" } : Vacancy).id_num = PyVal.int 1 :=
  ⟨(C4_type_validation (.str "bad") (.str "t") (.str "c") (.str "d")
      (.int 1) (.int 2) (.str "RUB") (.str "a") (.str "u")).1,
   ((C4_type_validation (.int 1) (.str "t") (.str "c") (.str "d")
      (.int 1) (.int 2) (.str "RUB") (.str "a") (.str "u")).2
      { id_num := .int 1, vacancy_name := .str "t", company_name := .str "c",
        description := .str "d", salary_from := .int 1, salary_to := .int 2,
        salary_currency := .str "RUB", area := .str "a", url := .str "u" }
      (by decide)).1⟩

/-- C5: the salary phrase is the "no information" marker when both
salary fields compare equal to `0`; otherwise it is the concatenation of
a "from" clause (only when `salary_from` is non-zero), a "to" clause
(only when `salary_to` is non-zero), then the currency, an omitted
clause contributing nothing. -/
theorem C5_salary_phrase (v : Vacancy) :
    (pyEq v.salary_from (.int 0) = true → pyEq v.salary_to (.int 0) = true →
      v.salary_range = "Информации нет") ∧
    (pyEq v.salary_from (.int 0) = false → pyEq v.salary_to (.int 0) = true →
      v.salary_range =
        "От " ++ toString (pyTrunc v.salary_from) ++ " " ++ pyFmt v.salary_currency) ∧
    (pyEq v.salary_from (.int 0) = true → pyEq v.salary_to (.int 0) = false →
      v.salary_range =
        "До " ++ toString (pyTrunc v.salary_to) ++ " " ++ pyFmt v.salary_currency) ∧
    (pyEq v.salary_from (.int 0) = false → pyEq v.salary_to (.int 0) = false →
      v.salary_range =
        "От " ++ toString (pyTrunc v.salary_from) ++ " " ++
        ("До " ++ toString (pyTrunc v.salary_to) ++ " ") ++
        pyFmt v.salary_currency) := by
  refine ⟨?_, ?_, ?_, ?_⟩ <;> intro hf ht <;>
    simp [Vacancy.salary_range, hf, ht]

/-- Witness for C5 at a concrete record with both clauses present. -/
theorem C5_salary_phrase_witness :
    Vacancy.salary_range
      { id_num := .int 1, vacancy_name := .str "t", company_name := .str "c",
        description := .str "d", salary_from := .int 100, salary_to := .int 200,
        salary_currency := .str "RUB", area := .str "a", url := .str "u" }
    = "От 100 До 200 RUB" := by
  have h := (C5_salary_phrase
    { id_num := .int 1, vacancy_name := .str "t", company_name := .str "c",
      description := .str "d", salary_from := .int 100, salary_to := .int 200,
      salary_currency := .str "RUB", area := .str "a", url := .str "u" }).2.2.2
    (by decide) (by decide)
  rw [h]
  decide

/-- C6: `to_dict` exports exactly the nine field names with the raw
stored values, and re-construction from those values succeeds and
reproduces the original record (hence a record equal to it under
`__eq__` and agreeing on all nine accessors). -/
theorem C6_to_dict_round_trip (v : Vacancy) (h : v.validate_data = .ok ()) :
    (v.to_dict.map Prod.fst =
      ["id_num", "vacancy_name", "company_name", "description", "salary_from",
       "salary_to", "salary_currency", "area", "url"]) ∧
    (v.to_dict.lookup "salary_from" = some v.salary_from ∧
     v.to_dict.lookup "salary_to" = some v.salary_to ∧
     v.to_dict.lookup "salary_currency" = some v.salary_currency) ∧
    Vacancy.from_dict v.to_dict = .ok v ∧
    (∀ w, Vacancy.from_dict v.to_dict = .ok w →
      Vacancy.eq v w = true ∧ w.id_num = v.id_num ∧
      w.vacancy_name = v.vacancy_name ∧ w.company_name = v.company_name ∧
      w.description = v.description ∧ w.salary_from = v.salary_from ∧
      w.salary_to = v.salary_to ∧ w.salary_currency = v.salary_currency ∧
      w.area = v.area ∧ w.url = v.url) := by
  have hb := (validate_ok_iff v).mp h
  simp only [Bool.and_eq_true] at hb
  obtain ⟨⟨⟨⟨⟨⟨⟨⟨hid, hname⟩, hcomp⟩, hdesc⟩, hsf⟩, hst⟩, hcur⟩, harea⟩, hurl⟩ := hb
  have hfd : Vacancy.from_dict v.to_dict =
      Vacancy.init v.id_num v.vacancy_name v.company_name v.description
        v.salary_from v.salary_to v.salary_currency v.area v.url := rfl
  have hinit : Vacancy.init v.id_num v.vacancy_name v.company_name v.description
      v.salary_from v.salary_to v.salary_currency v.area v.url = .ok v := by
    simp only [Vacancy.init, coalesceSal_of_num hsf, coalesceSal_of_num hst,
      coalesceCur_of_str hcur]
    show (match v.validate_data with
          | .ok _ => Except.ok v
          | .error e => Except.error e) = Except.ok v
    rw [h]
  refine ⟨rfl, ⟨rfl, rfl, rfl⟩, hfd.trans hinit, ?_⟩
  intro w hw
  rw [hfd.trans hinit] at hw
  cases hw
  exact ⟨vacEq_refl v, rfl, rfl, rfl, rfl, rfl, rfl, rfl, rfl, rfl⟩

/-- Witness for C6 at a concrete valid record. -/
theorem C6_to_dict_round_trip_witness :
    Vacancy.from_dict
      (Vacancy.to_dict
        { id_num := .int 1, vacancy_name := .str "t", company_name := .str "c",
          description := .str "d", salary_from := .int 100, salary_to := .int 200,
          salary_currency := .str "RUB", area := .str "a", url := .str "u" })
    = .ok { id_num := .int 1, vacancy_name := .str "t", company_name := .str "c",
            description := .str "d", salary_from := .int 100, salary_to := .int 200,
            salary_currency := .str "RUB", area := .str "a", url := .str "u" } :=
  (C6_to_dict_round_trip
    { id_num := .int 1, vacancy_name := .str "t", company_name := .str "c",
      description := .str "d", salary_from := .int 100, salary_to := .int 200,
      salary_currency := .str "RUB", area := .str "a", url := .str "u" }
    (by decide)).2.2.1

/-- C7 counterexample: with a wrong-typed `salary_currency` (an int)
and a wrong-typed `salary_from` (a string) together, construction
raises the error for `salary_from` — not, as the claim states, the one
for `salary_currency`. -/
theorem C7_counterexample_from_before_currency :
    Vacancy.init (.int 1) (.str "t") (.str "c") (.str "d")
      (.str "bad") (.int 0) (.int 5) (.str "a") (.str "u")
    = .error "Зарплата \x27from\x27 должна быть числом (целым или десятичным)" ∧
    Vacancy.init (.int 1) (.str "t") (.str "c") (.str "d")
      (.str "bad") (.int 0) (.int 5) (.str "a") (.str "u")
    ≠ .error "Валюта зарплаты должна быть строкой" := by
  decide

/-- C7 (amended): validation is a first-failure sequence of
`isinstance` checks in the code's order — id, title, company,
description, `salary_from`, `salary_to`, `salary_currency`, area, url —
the raised error identifying the first failing field; in particular,
when both `salary_currency` and `salary_from` have wrong types the
error identifies `salary_from`. -/
theorem C7_validation_first_failure (v : Vacancy) :
    (v.validate_data =
      match firstFailure v.checkList with
      | some m => Except.error m
      | Option.none => Except.ok ()) ∧
    (isInstNum v.salary_from = false → isInstInt v.id_num = true →
     isInstStr v.vacancy_name = true → isInstStr v.company_name = true →
     isInstStr v.description = true →
     v.validate_data =
       .error "Зарплата \x27from\x27 должна быть числом (целым или десятичным)") := by
  constructor
  · unfold Vacancy.validate_data Vacancy.checkList
    exact chain_step _ _ _ _ (chain_step _ _ _ _ (chain_step _ _ _ _
      (chain_step _ _ _ _ (chain_step _ _ _ _ (chain_step _ _ _ _
        (chain_step _ _ _ _ (chain_step _ _ _ _ (chain_step _ _ _ _ rfl))))))))
  · intro h hi hn hc hd
    simp [Vacancy.validate_data, hi, hn, hc, hd, h]

/-- Witness for C7 (amended) at a concrete record with both
`salary_currency` and `salary_from` wrong-typed. -/
theorem C7_validation_first_failure_witness :
    Vacancy.validate_data
      { id_num := .int 1, vacancy_name := .str "t", company_name := .str "c",
        description := .str "d", salary_from := .str "bad", salary_to := .int 0,
        salary_currency := .int 5, area := .str "a", url := .str "u" }
    = .error "Зарплата \x27from\x27 должна быть числом (целым или десятичным)" :=
  (C7_validation_first_failure
    { id_num := .int 1, vacancy_name := .str "t", company_name := .str "c",
      description := .str "d", salary_from := .str "bad", salary_to := .int 0,
      salary_currency := .int 5, area := .str "a", url := .str "u" }).2
    (by decide) (by decide) (by decide) (by decide) (by decide)

/-- A record whose `salary_from` is the float `49999.9`. -/
def vacFloatSalary : Vacancy :=
  { id_num := .int 1, vacancy_name := .str "t", company_name := .str "c",
    description := .str "d", salary_from := .float (Rat.mk' 499999 10),
    salary_to := .int 0, salary_currency := .str "RUB", area := .str "a",
    url := .str "u" }

/-- C8: the rendered salary value is the float truncated toward zero
(`⌊q⌋` for non-negative `q`, `⌈q⌉` for non-positive `q`, so the
fractional part is dropped, never rounded away from zero); in
particular `49999.9` renders as `49999` in the "from" clause. -/
theorem C8_trunc_toward_zero :
    (∀ q : ℚ, 0 ≤ q → pyTrunc (.float q) = ⌊q⌋) ∧
    (∀ q : ℚ, q ≤ 0 → pyTrunc (.float q) = ⌈q⌉) ∧
    pyTrunc (.float (Rat.mk' 499999 10)) = 49999 ∧
    pyTrunc (.float (Rat.mk' (-37) 10)) = -3 ∧
    Vacancy.salary_range vacFloatSalary = "От 49999 RUB" := by
  refine ⟨?_, ?_, by decide, by decide, by decide⟩
  · intro q hq
    show q.num.tdiv q.den = ⌊q⌋
    rw [Rat.floor_def]
    exact Int.tdiv_eq_ediv (Rat.num_nonneg.mpr hq) (Int.natCast_nonneg _)
  · intro q hq
    show q.num.tdiv q.den = ⌈q⌉
    have h1 : (0 : ℚ) ≤ -q := by linarith
    have h2 : (-q).num.tdiv (-q).den = ⌊-q⌋ := by
      rw [Rat.floor_def]
      exact Int.tdiv_eq_ediv (Rat.num_nonneg.mpr h1) (Int.natCast_nonneg _)
    calc q.num.tdiv q.den
        = -((-q.num).tdiv (q.den : Int)) := by rw [Int.neg_tdiv, neg_neg]
      _ = -((-q).num.tdiv ((-q).den : Int)) := by rw [Rat.neg_num, Rat.neg_den]
      _ = -⌊-q⌋ := by rw [h2]
      _ = ⌈q⌉ := by rw [Int.floor_neg, neg_neg]

/-- Witness for C8's universal parts at a concrete rational. -/
theorem C8_trunc_toward_zero_witness :
    pyTrunc (.float (Rat.mk' 1 2)) = ⌊(Rat.mk' 1 2 : ℚ)⌋ ∧
    pyTrunc (.float (Rat.mk' (-1) 2)) = ⌈(Rat.mk' (-1) 2 : ℚ)⌉ :=
  ⟨C8_trunc_toward_zero.1 (Rat.mk' 1 2) (by decide),
   C8_trunc_toward_zero.2.1 (Rat.mk' (-1) 2) (by decide)⟩
